import Mathlib

/-!
# Workhorse `goredis`: connection configuration and dial instrumentation

A shallow embedding of `workhorse/internal/goredis/goredis.go`.

* Go's package-level state (the Prometheus counters, the `rdb` client variable)
  and the configuration record reached through a pointer are passed explicitly.
* Code of other packages that the file calls (`net.Dialer.DialContext`,
  `redis.ParseURL`, `url.URL.String`, `url.URL.Hostname`, `url.URL.Port`) is taken
  as a parameter, so every theorem holds for each behaviour of those functions.
* `time.Duration` is a number of nanoseconds, `int` is `Int`, an optional `*int`
  is `Option Int`, and a Go `error` value is `Option GoError` (`none` is `nil`).
-/

namespace GoRedis

/-! ## Data model -/

/-- A non-nil Go `error` value: `ident` tells distinct error values apart, `text`
is what its `Error()` method returns. -/
structure GoError where
  ident : Nat
  text : String
  deriving DecidableEq, Repr

/-- The `Error()` method of a Go error. -/
def GoError.Error (e : GoError) : String := e.text

/-- A `net.Conn` handle. -/
structure Conn where
  fd : Nat
  deriving DecidableEq, Repr

/-- A `context.Context` handle. -/
structure Context where
  ident : Nat
  deriving DecidableEq, Repr

/-- The two fields of `net.Dialer` that the code sets, in nanoseconds. -/
structure NetDialer where
  Timeout : Int
  KeepAlive : Int
  deriving DecidableEq, Repr

/-- One invocation of `net.Dialer.DialContext`: the receiver and the arguments. -/
structure DialCall where
  dialer : NetDialer
  ctx : Context
  network : String
  addr : String
  deriving DecidableEq, Repr

/-- The state outside the function bodies: the counter vector
`internalredis.ErrorCounter` (indexed by its two label values), the counter
`internalredis.TotalConnections`, and the sequence of network dials performed. -/
structure World where
  ErrorCounter : String → String → Nat
  TotalConnections : Nat
  netDials : List DialCall

/-- The call `ErrorCounter.WithLabelValues(op, dest).Inc()`. -/
def World.incError (w : World) (op dest : String) : World :=
  { w with ErrorCounter := fun o d =>
      if o = op ∧ d = dest then w.ErrorCounter o d + 1 else w.ErrorCounter o d }

/-- The call `TotalConnections.Inc()`. -/
def World.incTotal (w : World) : World :=
  { w with TotalConnections := w.TotalConnections + 1 }

/-- The result pair `(net.Conn, error)` of a dial. -/
abbrev DialResult := Option Conn × Option GoError

/-- The behaviour of `net.Dialer.DialContext`, a parameter of the model. -/
abbrev NetDial := NetDialer → Context → String → String → DialResult

/-- A dial function `func(ctx, network, addr) (net.Conn, error)` together with
its effect on the world. -/
abbrev DialFunc := Context → String → String → World → DialResult × World

/-- The constant `time.Millisecond` in nanoseconds. -/
def Millisecond : Int := 1000000

/-- The constant `time.Second` in nanoseconds. -/
def Second : Int := 1000 * Millisecond

/-- The constant `time.Minute` in nanoseconds. -/
def Minute : Int := 60 * Second

/-- Max Idle Connections in the pool. -/
def defaultMaxIdle : Int := 1

/-- Max Active Connections in the pool. -/
def defaultMaxActive : Int := 1

/-- Timeout for Read operations on the pool. -/
def defaultReadTimeout : Int := 1 * Second

/-- Timeout for Write operations on the pool. -/
def defaultWriteTimeout : Int := 1 * Second

/-- Timeout before killing Idle connections in the pool. -/
def defaultIdleTimeout : Int := 3 * Minute

/-- The error go-redis reports when no sentinel can be reached. -/
def errSentinelMasterAddr : GoError :=
  { ident := 0, text := "redis: all sentinels specified in configuration are unreachable" }

/-- The type `url.Userinfo`. -/
structure Userinfo where
  username : String
  password : String
  passwordSet : Bool
  deriving DecidableEq, Repr

/-- The method `(*url.Userinfo).Password`: the password and whether it is set; a nil
receiver has none. -/
def Userinfo.Password : Option Userinfo → String × Bool
  | none => ("", false)
  | some u => (u.password, u.passwordSet)

/-- The type `config.TomlURL`, a struct embedding `url.URL` by value. -/
structure TomlURL where
  Scheme : String
  User : Option Userinfo
  Host : String
  Path : String
  RawQuery : String
  deriving DecidableEq, Repr

/-- The type `config.RedisConfig`. -/
structure RedisConfig where
  URL : TomlURL
  Sentinel : List TomlURL
  SentinelMaster : String
  SentinelPassword : String
  Password : String
  DB : Option Int
  MaxIdle : Option Int
  MaxActive : Option Int
  deriving DecidableEq, Repr

/-- The fields of `redis.Options` that `redis.ParseURL` or this file sets. -/
structure Options where
  Network : String
  Addr : String
  Username : String
  Password : String
  DB : Int
  PoolSize : Int
  MaxIdleConns : Int
  ConnMaxIdleTime : Int
  ReadTimeout : Int
  WriteTimeout : Int
  Dialer : Option DialFunc

/-- The fields of `redis.FailoverOptions` that this file sets. -/
structure FailoverOptions where
  MasterName : String
  SentinelAddrs : List String
  Password : String
  SentinelPassword : String
  DB : Int
  PoolSize : Int
  MaxIdleConns : Int
  ConnMaxIdleTime : Int
  ReadTimeout : Int
  WriteTimeout : Int
  Dialer : Option DialFunc

/-- The hooks this file can attach to a client. -/
inductive Hook where
  | sentinelInstrumentationHook
  deriving DecidableEq, Repr

/-- A `*redis.Client`: how it was constructed and the hooks added since. -/
inductive Client where
  | NewClient (opt : Options) (hooks : List Hook)
  | NewFailoverClient (opt : FailoverOptions) (hooks : List Hook)

/-- The call `client.AddHook(h)`. -/
def Client.AddHook : Client → Hook → Client
  | .NewClient opt hooks, h => .NewClient opt (hooks ++ [h])
  | .NewFailoverClient opt hooks, h => .NewFailoverClient opt (hooks ++ [h])

/-- The pool size a client was constructed with. -/
def Client.PoolSize : Client → Int
  | .NewClient opt _ => opt.PoolSize
  | .NewFailoverClient opt _ => opt.PoolSize

/-- The idle-connection bound a client was constructed with. -/
def Client.MaxIdleConns : Client → Int
  | .NewClient opt _ => opt.MaxIdleConns
  | .NewFailoverClient opt _ => opt.MaxIdleConns

/-- Functions of the standard library and of go-redis that the file calls. -/
structure Lib where
  /-- The method `url.URL.String`. -/
  URLString : TomlURL → String
  /-- The method `url.URL.Hostname`. -/
  Hostname : TomlURL → String
  /-- The method `url.URL.Port`. -/
  Port : TomlURL → String
  /-- The function `redis.ParseURL`. -/
  ParseURL : String → Except GoError Options
  /-- The method `net.Dialer.DialContext`. -/
  net : NetDial

/-! ## The dialer -/

/-- The classification loop of `createDialer`: scan `sentinels` in order and
stop at the first entry equal to `addr`. -/
def isSentinelLoop : List String → String → Bool
  | [], _ => false
  | sentinelAddr :: rest, addr =>
    if sentinelAddr == addr then true else isSentinelLoop rest addr

/-- Function `createDialer`: the dial function for the given sentinel addresses. -/
def createDialer (net : NetDial) (sentinels : List String) : DialFunc :=
  fun ctx network addr w =>
    let isSentinel := isSentinelLoop sentinels addr
    let dialTimeout := if isSentinel then 500 * Millisecond else 5 * Second
    let destination := if isSentinel then "sentinel" else "redis"
    let netDialer : NetDialer := { Timeout := dialTimeout, KeepAlive := 5 * Minute }
    let res := net netDialer ctx network addr
    let w1 : World :=
      { w with netDials := w.netDials ++
          [{ dialer := netDialer, ctx := ctx, network := network, addr := addr }] }
    let w2 : World :=
      match res.2 with
      | some _ => w1.incError "dial" destination
      | none => if !isSentinel then w1.incTotal else w1
    (res, w2)

/-- Method `sentinelInstrumentationHook.DialHook`. -/
def sentinelInstrumentationHook.DialHook (next : DialFunc) : DialFunc :=
  fun ctx network addr w =>
    let r := next ctx network addr w
    let w2 : World :=
      match r.1.2 with
      | some err =>
        if err.Error == errSentinelMasterAddr.Error then r.2.incError "master" "sentinel"
        else r.2
      | none => r.2
    (r.1, w2)

/-! ## Configuration -/

/-- Function `getOrDefault`. -/
def getOrDefault (ptr : Option Int) (val : Int) : Int :=
  match ptr with
  | some v => v
  | none => val

/-- The loop of `sentinelOptions` from index `i` on: `rest` holds the
descriptors `cfg.Sentinel[i:]`. -/
def sentinelOptionsLoop (lib : Lib) :
    Nat → List TomlURL → String → List String → String × List String
  | _, [], sentinelPassword, sentinels => (sentinelPassword, sentinels)
  | i, sentinelDetails :: rest, sentinelPassword, sentinels =>
    let sentinels1 :=
      sentinels.set i (lib.Hostname sentinelDetails ++ ":" ++ lib.Port sentinelDetails)
    let pw := Userinfo.Password sentinelDetails.User
    let sentinelPassword1 :=
      if pw.2 && sentinelPassword.utf8ByteSize == 0 then pw.1 else sentinelPassword
    sentinelOptionsLoop lib (i + 1) rest sentinelPassword1 sentinels1

/-- Function `sentinelOptions`: the sentinel password and the addresses in
`<host>:<port>` format. -/
def sentinelOptions (lib : Lib) (cfg : RedisConfig) : String × List String :=
  sentinelOptionsLoop lib 0 cfg.Sentinel cfg.SentinelPassword
    (List.replicate cfg.Sentinel.length "")

/-- Function `configureRedis`: the configuration record as the call leaves it, the client
and the error. -/
def configureRedis (lib : Lib) (cfg : RedisConfig) :
    RedisConfig × Option Client × Option GoError :=
  let cfg1 : RedisConfig :=
    if cfg.URL.Scheme == "tcp" then { cfg with URL := { cfg.URL with Scheme := "redis" } }
    else cfg
  match lib.ParseURL (lib.URLString cfg1.URL) with
  | .error err => (cfg1, none, some err)
  | .ok opt =>
    let opt1 : Options :=
      { opt with
        DB := getOrDefault cfg1.DB 0
        Password := cfg1.Password
        PoolSize := getOrDefault cfg1.MaxActive defaultMaxActive
        MaxIdleConns := getOrDefault cfg1.MaxIdle defaultMaxIdle
        ConnMaxIdleTime := defaultIdleTimeout
        ReadTimeout := defaultReadTimeout
        WriteTimeout := defaultWriteTimeout
        Dialer := some (createDialer lib.net []) }
    (cfg1, some (Client.NewClient opt1 []), none)

/-- Function `configureSentinel`. -/
def configureSentinel (lib : Lib) (cfg : RedisConfig) : Client :=
  let so := sentinelOptions lib cfg
  let client := Client.NewFailoverClient
    { MasterName := cfg.SentinelMaster
      SentinelAddrs := so.2
      Password := cfg.Password
      SentinelPassword := so.1
      DB := getOrDefault cfg.DB 0
      PoolSize := getOrDefault cfg.MaxActive defaultMaxActive
      MaxIdleConns := getOrDefault cfg.MaxIdle defaultMaxIdle
      ConnMaxIdleTime := defaultIdleTimeout
      ReadTimeout := defaultReadTimeout
      WriteTimeout := defaultWriteTimeout
      Dialer := some (createDialer lib.net so.2) } []
  client.AddHook Hook.sentinelInstrumentationHook

/-- What a call of `Configure` leaves behind: the configuration record behind
the pointer, the package variable `rdb`, and the returned error. -/
structure ConfigureResult where
  cfg : Option RedisConfig
  rdb : Option Client
  err : Option GoError

/-- Function `Configure`: `cfg` is the record behind the pointer (`none` for a nil
pointer) and `rdb` the value of the package variable before the call. -/
def Configure (lib : Lib) (cfg : Option RedisConfig) (rdb : Option Client) :
    ConfigureResult :=
  match cfg with
  | none => { cfg := none, rdb := rdb, err := none }
  | some c =>
    if c.Sentinel.length > 0 then
      { cfg := some c, rdb := some (configureSentinel lib c), err := none }
    else
      let r := configureRedis lib c
      { cfg := some r.1, rdb := r.2.1, err := r.2.2 }

/-- Function `GetRedisClient`. -/
def GetRedisClient (rdb : Option Client) : Option Client := rdb

/-! ## Vocabulary of the statements -/

/-- The credential embedded in a descriptor: the password of its user
information when one is set. -/
def embeddedCredential (d : TomlURL) : Option String :=
  if (Userinfo.Password d.User).2 then some (Userinfo.Password d.User).1 else none

/-- A descriptor that carries no embedded credential, or an empty one. -/
def noCredential (d : TomlURL) : Prop :=
  embeddedCredential d = none ∨ embeddedCredential d = some ""

instance (d : TomlURL) : Decidable (noCredential d) := by
  unfold noCredential
  infer_instance

/-- The endpoint URL as `configureRedis` hands it to the parser: the scheme
`tcp` is replaced by `redis`, every other URL is taken as it is. -/
def endpointURL (c : RedisConfig) : TomlURL :=
  if c.URL.Scheme = "tcp" then { c.URL with Scheme := "redis" } else c.URL

/-! ## Sample inputs -/

/-- A world in which nothing has been counted or dialled yet. -/
def sampleWorld : World :=
  { ErrorCounter := fun _ _ => 0, TotalConnections := 0, netDials := [] }

/-- A network on which every dial is refused. -/
def refusingNet : NetDial :=
  fun _ _ _ _ => (none, some { ident := 1, text := "dial tcp: connection refused" })

/-- A network on which every dial succeeds. -/
def acceptingNet : NetDial :=
  fun _ _ _ _ => (some { fd := 3 }, none)

/-- A network on which every dial succeeds and hands back a connection whose
descriptor is the connect timeout it was dialled with, in nanoseconds. -/
def timeoutEchoNet : NetDial :=
  fun d _ _ _ => (some { fd := d.Timeout.toNat }, none)

/-- A next handler that reports that no sentinel is reachable. -/
def unreachableNext : DialFunc :=
  fun _ _ _ w =>
    ((none,
      some ⟨7, "redis: all sentinels specified in configuration are unreachable"⟩), w)

/-- A library whose URL parser accepts exactly `redis://localhost:6379`. -/
def sampleLib : Lib :=
  { URLString := fun u => u.Scheme ++ "://" ++ u.Host ++ u.Path
    Hostname := fun u => u.Host
    Port := fun _ => "26379"
    ParseURL := fun s =>
      if s = "redis://localhost:6379" then
        .ok { Network := "tcp", Addr := "localhost:6379", Username := "", Password := "",
              DB := 0, PoolSize := 0, MaxIdleConns := 0, ConnMaxIdleTime := 0,
              ReadTimeout := 0, WriteTimeout := 0, Dialer := none }
      else .error { ident := 2, text := "redis: invalid URL" }
    net := acceptingNet }

/-- A sentinel descriptor without user information. -/
def plainSentinel : TomlURL :=
  { Scheme := "redis", User := none, Host := "sentinel1", Path := "", RawQuery := "" }

/-- A sentinel descriptor with an embedded password. -/
def secretSentinel : TomlURL :=
  { Scheme := "redis",
    User := some { username := "", password := "hunter2", passwordSet := true },
    Host := "sentinel2", Path := "", RawQuery := "" }

/-- A direct-mode configuration whose endpoint uses the scheme `tcp`. -/
def tcpConfig : RedisConfig :=
  { URL := { Scheme := "tcp", User := none, Host := "localhost:6379", Path := "",
             RawQuery := "" },
    Sentinel := [], SentinelMaster := "", SentinelPassword := "", Password := "",
    DB := none, MaxIdle := none, MaxActive := some 0 }

/-- A direct-mode configuration whose endpoint the sample parser rejects. -/
def malformedConfig : RedisConfig :=
  { tcpConfig with URL := { tcpConfig.URL with Scheme := "redis", Host := "%%%" } }

/-- A discovery-mediated configuration with two sentinels. -/
def sentinelConfig : RedisConfig :=
  { tcpConfig with Sentinel := [plainSentinel, secretSentinel], SentinelMaster := "mymaster" }

/-! ## The dialer: classification, timeouts, metrics -/

/-- The classification loop decides membership in the sentinel list. -/
theorem isSentinelLoop_eq_true_iff (sentinels : List String) (addr : String) :
    isSentinelLoop sentinels addr = true ↔ addr ∈ sentinels := by
  induction sentinels with
  | nil => simp [isSentinelLoop]
  | cons s rest ih =>
    unfold isSentinelLoop
    by_cases h : s = addr
    · simp [h]
    · have h2 : ¬ addr = s := fun e => h e.symm
      simp [h, h2, ih]

/-- The classification loop answers `false` exactly outside the sentinel list. -/
theorem isSentinelLoop_eq_false_iff (sentinels : List String) (addr : String) :
    isSentinelLoop sentinels addr = false ↔ addr ∉ sentinels := by
  rw [← isSentinelLoop_eq_true_iff]
  cases isSentinelLoop sentinels addr <;> simp

/-- C1: the dial function of `createDialer sentinels` performs the underlying
network dial exactly once, with the context, network and address it was given:
what it returns is what that dial produced with the 500 ms connect timeout when
`addr` equals an entry of `sentinels`, and with the 5 s connect timeout for
every other address (the keep-alive is 5 minutes in both cases); with no
sentinels every address is dialled with the 5 s timeout. -/
theorem createDialer_timeout (net : NetDial) (sentinels : List String) (ctx : Context)
    (network addr : String) (w : World) :
    (addr ∈ sentinels →
      (createDialer net sentinels ctx network addr w).1
        = net { Timeout := 500000000, KeepAlive := 300000000000 } ctx network addr ∧
      (createDialer net sentinels ctx network addr w).2.netDials = w.netDials ++
        [{ dialer := { Timeout := 500000000, KeepAlive := 300000000000 },
           ctx := ctx, network := network, addr := addr }]) ∧
    (addr ∉ sentinels →
      (createDialer net sentinels ctx network addr w).1
        = net { Timeout := 5000000000, KeepAlive := 300000000000 } ctx network addr ∧
      (createDialer net sentinels ctx network addr w).2.netDials = w.netDials ++
        [{ dialer := { Timeout := 5000000000, KeepAlive := 300000000000 },
           ctx := ctx, network := network, addr := addr }]) ∧
    ((createDialer net [] ctx network addr w).1
        = net { Timeout := 5000000000, KeepAlive := 300000000000 } ctx network addr ∧
      (createDialer net [] ctx network addr w).2.netDials = w.netDials ++
        [{ dialer := { Timeout := 5000000000, KeepAlive := 300000000000 },
           ctx := ctx, network := network, addr := addr }]) := by
  have hshort : (500 * Millisecond : Int) = 500000000 := by decide
  have hlong : (5 * Second : Int) = 5000000000 := by decide
  have hkeep : (5 * Minute : Int) = 300000000000 := by decide
  refine ⟨fun h => ?_, fun h => ?_, ?_⟩
  · have hs := (isSentinelLoop_eq_true_iff sentinels addr).2 h
    simp only [createDialer, hs, if_true, hshort, hkeep]
    refine ⟨trivial, ?_⟩
    cases (net _ ctx network addr).2 <;> simp [World.incError, World.incTotal]
  · have hs := (isSentinelLoop_eq_false_iff sentinels addr).2 h
    simp only [createDialer, hs, hlong, hkeep]
    refine ⟨by simp, ?_⟩
    cases (net _ ctx network addr).2 <;> simp [World.incError, World.incTotal]
  · simp only [createDialer, isSentinelLoop, hlong, hkeep]
    refine ⟨by simp, ?_⟩
    cases (net _ ctx network addr).2 <;> simp [World.incError, World.incTotal]

/-- C2: when the underlying network dial fails, a sentinel address adds one to
the failure counter labelled `("dial", "sentinel")` and leaves `("dial", "redis")`
alone, any other address adds one to `("dial", "redis")` and leaves
`("dial", "sentinel")` alone, and the total-connections counter keeps its value
in both cases. -/
theorem createDialer_failure_counters (net : NetDial) (sentinels : List String)
    (ctx : Context) (network addr : String) (w : World) :
    (addr ∈ sentinels →
      (net { Timeout := 500 * Millisecond, KeepAlive := 5 * Minute } ctx network addr).2
        ≠ none →
      (createDialer net sentinels ctx network addr w).2.ErrorCounter "dial" "sentinel"
        = w.ErrorCounter "dial" "sentinel" + 1 ∧
      (createDialer net sentinels ctx network addr w).2.ErrorCounter "dial" "redis"
        = w.ErrorCounter "dial" "redis" ∧
      (createDialer net sentinels ctx network addr w).2.TotalConnections
        = w.TotalConnections) ∧
    (addr ∉ sentinels →
      (net { Timeout := 5 * Second, KeepAlive := 5 * Minute } ctx network addr).2
        ≠ none →
      (createDialer net sentinels ctx network addr w).2.ErrorCounter "dial" "redis"
        = w.ErrorCounter "dial" "redis" + 1 ∧
      (createDialer net sentinels ctx network addr w).2.ErrorCounter "dial" "sentinel"
        = w.ErrorCounter "dial" "sentinel" ∧
      (createDialer net sentinels ctx network addr w).2.TotalConnections
        = w.TotalConnections) := by
  refine ⟨fun h hf => ?_, fun h hf => ?_⟩
  · have hs := (isSentinelLoop_eq_true_iff sentinels addr).2 h
    obtain ⟨e, he⟩ := Option.ne_none_iff_exists'.1 hf
    simp [createDialer, hs, he, World.incError]
  · have hs := (isSentinelLoop_eq_false_iff sentinels addr).2 h
    obtain ⟨e, he⟩ := Option.ne_none_iff_exists'.1 hf
    simp [createDialer, hs, he, World.incError]

/-- C3: when the underlying network dial succeeds, an address outside the
sentinel list adds exactly one to the total-connections counter, a sentinel
address leaves it unchanged, and no failure counter changes in either case. -/
theorem createDialer_success_counters (net : NetDial) (sentinels : List String)
    (ctx : Context) (network addr : String) (w : World) :
    (addr ∉ sentinels →
      (net { Timeout := 5 * Second, KeepAlive := 5 * Minute } ctx network addr).2
        = none →
      (createDialer net sentinels ctx network addr w).2.TotalConnections
        = w.TotalConnections + 1 ∧
      (createDialer net sentinels ctx network addr w).2.ErrorCounter = w.ErrorCounter) ∧
    (addr ∈ sentinels →
      (net { Timeout := 500 * Millisecond, KeepAlive := 5 * Minute } ctx network addr).2
        = none →
      (createDialer net sentinels ctx network addr w).2.TotalConnections
        = w.TotalConnections ∧
      (createDialer net sentinels ctx network addr w).2.ErrorCounter = w.ErrorCounter) := by
  refine ⟨fun h hf => ?_, fun h hf => ?_⟩
  · have hs := (isSentinelLoop_eq_false_iff sentinels addr).2 h
    simp [createDialer, hs, hf, World.incTotal]
  · have hs := (isSentinelLoop_eq_true_iff sentinels addr).2 h
    simp [createDialer, hs, hf]

/-- C4: the pair returned by the dial function of `createDialer` is the pair the
one underlying network dial it performed produced, and the pair returned by
`DialHook next` is the pair `next` returned for the same arguments. -/
theorem dial_results_unchanged (net : NetDial) (sentinels : List String)
    (next : DialFunc) (ctx : Context) (network addr : String) (w : World) :
    (∃ d : NetDialer,
      (createDialer net sentinels ctx network addr w).2.netDials = w.netDials ++
        [{ dialer := d, ctx := ctx, network := network, addr := addr }] ∧
      (createDialer net sentinels ctx network addr w).1 = net d ctx network addr) ∧
    (sentinelInstrumentationHook.DialHook next ctx network addr w).1
      = (next ctx network addr w).1 := by
  refine ⟨⟨_, ?_, rfl⟩, rfl⟩
  simp only [createDialer]
  cases (net _ ctx network addr).2 <;>
    cases isSentinelLoop sentinels addr <;> simp [World.incError, World.incTotal]

/-- C9: the dial hook adds exactly one to the counter labelled
`("master", "sentinel")` if and only if `next` returned an error whose message
equals that of `errSentinelMasterAddr`; otherwise it leaves the world `next`
produced untouched, and in every case it leaves each other failure counter, the
`("dial", _)` ones included, and the total-connections counter as `next` left
them. -/
theorem DialHook_counts_master_failure (next : DialFunc) (ctx : Context)
    (network addr : String) (w : World) :
    ((sentinelInstrumentationHook.DialHook next ctx network addr w).2.ErrorCounter
        "master" "sentinel"
        = (next ctx network addr w).2.ErrorCounter "master" "sentinel" + 1 ↔
      ∃ e, (next ctx network addr w).1.2 = some e ∧
        e.Error = "redis: all sentinels specified in configuration are unreachable") ∧
    ((¬ ∃ e, (next ctx network addr w).1.2 = some e ∧
        e.Error = "redis: all sentinels specified in configuration are unreachable") →
      (sentinelInstrumentationHook.DialHook next ctx network addr w).2
        = (next ctx network addr w).2) ∧
    (∀ op dest, ¬ (op = "master" ∧ dest = "sentinel") →
      (sentinelInstrumentationHook.DialHook next ctx network addr w).2.ErrorCounter op dest
        = (next ctx network addr w).2.ErrorCounter op dest) ∧
    (sentinelInstrumentationHook.DialHook next ctx network addr w).2.TotalConnections
      = (next ctx network addr w).2.TotalConnections := by
  simp only [sentinelInstrumentationHook.DialHook, errSentinelMasterAddr, GoError.Error]
  cases hr : (next ctx network addr w).1.2 with
  | none => simp
  | some e =>
    by_cases hm : e.text = "redis: all sentinels specified in configuration are unreachable"
    · simp [hm, World.incError]
    · simp [hm]

/-! ## Sentinel addresses and credential -/

/-- A Go string has length zero exactly when it is the empty string. -/
theorem utf8ByteSize_eq_zero_iff (s : String) : s.utf8ByteSize = 0 ↔ s = "" := by
  constructor
  · intro h
    cases s with
    | mk cs =>
      cases cs with
      | nil => rfl
      | cons c t =>
        exfalso
        simp only [String.utf8ByteSize, String.utf8ByteSize.go] at h
        have := Char.utf8Size_pos c
        omega
  · intro h
    subst h
    rfl

/-- Writing at the index just past a known front segment replaces the next entry. -/
theorem set_length_append (pre : List String) (x y : String) (t : List String) :
    (pre ++ x :: t).set pre.length y = pre ++ y :: t := by
  induction pre with
  | nil => rfl
  | cons a pre ih => simp [List.set, ih]

/-- The loop fills the slots that follow the front segment with the formatted
addresses of the remaining descriptors. -/
theorem sentinelOptionsLoop_snd (lib : Lib) (rest : List TomlURL) (pw : String)
    (pre : List String) :
    (sentinelOptionsLoop lib pre.length rest pw (pre ++ List.replicate rest.length "")).2
      = pre ++ rest.map (fun d => lib.Hostname d ++ ":" ++ lib.Port d) := by
  induction rest generalizing pw pre with
  | nil => simp [sentinelOptionsLoop]
  | cons d ds ih =>
    simp only [sentinelOptionsLoop, List.length_cons, List.replicate_succ, set_length_append]
    have h := ih (if (Userinfo.Password d.User).2 && pw.utf8ByteSize == 0
      then (Userinfo.Password d.User).1 else pw) (pre ++ [lib.Hostname d ++ ":" ++ lib.Port d])
    simp only [List.length_append, List.length_singleton, List.append_assoc,
      List.singleton_append] at h
    simpa using h

/-- A password that is already non-empty survives the loop. -/
theorem sentinelOptionsLoop_fst_of_ne (lib : Lib) (rest : List TomlURL) (i : Nat)
    (pw : String) (out : List String) (h : pw ≠ "") :
    (sentinelOptionsLoop lib i rest pw out).1 = pw := by
  induction rest generalizing i out with
  | nil => simp [sentinelOptionsLoop]
  | cons d ds ih =>
    have hz : ¬ pw.utf8ByteSize = 0 := fun e => h ((utf8ByteSize_eq_zero_iff pw).1 e)
    simp only [sentinelOptionsLoop]
    simp [hz, ih]

/-- Descriptors without a non-empty credential leave an empty password empty. -/
theorem sentinelOptionsLoop_fst_of_noCredential (lib : Lib) (rest : List TomlURL) (i : Nat)
    (out : List String) (h : ∀ x ∈ rest, noCredential x) :
    (sentinelOptionsLoop lib i rest "" out).1 = "" := by
  induction rest generalizing i out with
  | nil => simp [sentinelOptionsLoop]
  | cons d ds ih =>
    have hd := h d (List.mem_cons_self d ds)
    have hds : ∀ x ∈ ds, noCredential x := fun x hx => h x (List.mem_cons_of_mem d hx)
    simp only [sentinelOptionsLoop]
    have hp : (if (Userinfo.Password d.User).2 && ("" : String).utf8ByteSize == 0
        then (Userinfo.Password d.User).1 else "") = "" := by
      unfold noCredential embeddedCredential at hd
      cases hx : (Userinfo.Password d.User).2 <;> simp [hx] at hd ⊢
      exact fun _ => hd
    rw [hp]
    exact ih _ _ hds

/-- The loop over a concatenation is the loop over the second part started from
what the loop over the first part left. -/
theorem sentinelOptionsLoop_append (lib : Lib) (a b : List TomlURL) (i : Nat) (pw : String)
    (out : List String) :
    sentinelOptionsLoop lib i (a ++ b) pw out
      = sentinelOptionsLoop lib (i + a.length) b (sentinelOptionsLoop lib i a pw out).1
          (sentinelOptionsLoop lib i a pw out).2 := by
  induction a generalizing i pw out with
  | nil => simp [sentinelOptionsLoop]
  | cons d ds ih =>
    have hi : i + 1 + ds.length = i + (ds.length + 1) := by omega
    simp only [List.cons_append, sentinelOptionsLoop, List.length_cons]
    rw [← hi]
    exact ih _ _ _

/-- C5: the credential returned by `sentinelOptions` is the configured sentinel
password whenever that is non-empty; with an empty configured password it is the
first non-empty embedded credential in list order, descriptors without a
credential or with an empty one being skipped; and it is the empty string when
no descriptor carries a non-empty credential. -/
theorem sentinelOptions_credential (lib : Lib) (cfg : RedisConfig) :
    (cfg.SentinelPassword ≠ "" → (sentinelOptions lib cfg).1 = cfg.SentinelPassword) ∧
    (cfg.SentinelPassword = "" →
      ∀ (before after : List TomlURL) (d : TomlURL) (pw : String),
        cfg.Sentinel = before ++ d :: after →
        (∀ x ∈ before, noCredential x) →
        embeddedCredential d = some pw → pw ≠ "" →
        (sentinelOptions lib cfg).1 = pw) ∧
    (cfg.SentinelPassword = "" → (∀ x ∈ cfg.Sentinel, noCredential x) →
      (sentinelOptions lib cfg).1 = "") := by
  refine ⟨fun h => ?_, fun h before after d pw hl hb hd hpw => ?_, fun h hall => ?_⟩
  · exact sentinelOptionsLoop_fst_of_ne lib _ _ _ _ h
  · unfold sentinelOptions
    rw [h, hl, sentinelOptionsLoop_append,
      sentinelOptionsLoop_fst_of_noCredential lib before _ _ hb]
    simp only [sentinelOptionsLoop]
    have hp : (if (Userinfo.Password d.User).2 && ("" : String).utf8ByteSize == 0
        then (Userinfo.Password d.User).1 else "") = pw := by
      unfold embeddedCredential at hd
      cases hx : (Userinfo.Password d.User).2 <;> simp [hx] at hd ⊢
      have hz : ("" : String).utf8ByteSize = 0 := rfl
      rw [if_pos hz]
      exact hd
    rw [hp]
    exact sentinelOptionsLoop_fst_of_ne lib _ _ _ _ hpw
  · unfold sentinelOptions
    rw [h]
    exact sentinelOptionsLoop_fst_of_noCredential lib _ _ _ hall

/-- C6: for a configuration with N sentinel descriptors `sentinelOptions` returns
exactly N address strings, the i-th being the hostname of the i-th descriptor, a
colon, and its port, in the order of the input. -/
theorem sentinelOptions_addresses (lib : Lib) (cfg : RedisConfig) :
    (sentinelOptions lib cfg).2.length = cfg.Sentinel.length ∧
    (∀ (i : Nat) (d : TomlURL), cfg.Sentinel[i]? = some d →
      (sentinelOptions lib cfg).2[i]? = some (lib.Hostname d ++ ":" ++ lib.Port d)) ∧
    (sentinelOptions lib cfg).2
      = cfg.Sentinel.map (fun d => lib.Hostname d ++ ":" ++ lib.Port d) := by
  have h : (sentinelOptions lib cfg).2
      = cfg.Sentinel.map (fun d => lib.Hostname d ++ ":" ++ lib.Port d) := by
    have := sentinelOptionsLoop_snd lib cfg.Sentinel cfg.SentinelPassword []
    simpa [sentinelOptions] using this
  refine ⟨by rw [h, List.length_map], fun i d hd => ?_, h⟩
  rw [h, List.getElem?_map, hd]
  rfl

/-! ## Configure -/

/-- The three results of `configureRedis` in terms of the endpoint URL handed to
the parser. -/
theorem configureRedis_eq (lib : Lib) (c : RedisConfig) :
    configureRedis lib c =
      match lib.ParseURL (lib.URLString (endpointURL c)) with
      | .error err => ({ c with URL := endpointURL c }, none, some err)
      | .ok opt =>
        ({ c with URL := endpointURL c },
          some (Client.NewClient
            { opt with
              DB := getOrDefault c.DB 0
              Password := c.Password
              PoolSize := getOrDefault c.MaxActive defaultMaxActive
              MaxIdleConns := getOrDefault c.MaxIdle defaultMaxIdle
              ConnMaxIdleTime := defaultIdleTimeout
              ReadTimeout := defaultReadTimeout
              WriteTimeout := defaultWriteTimeout
              Dialer := some (createDialer lib.net []) } []),
          none) := by
  by_cases hs : c.URL.Scheme = "tcp"
  · simp only [configureRedis, endpointURL, hs, beq_self_eq_true, if_true]
  · have hb : (c.URL.Scheme == "tcp") = false := by simpa using hs
    simp only [configureRedis, endpointURL, hs, hb, if_false]
    rfl

/-- A non-empty sentinel list sends `Configure` down the sentinel branch. -/
theorem Configure_sentinel (lib : Lib) (c : RedisConfig) (rdb : Option Client)
    (h : c.Sentinel ≠ []) :
    Configure lib (some c) rdb
      = { cfg := some c, rdb := some (configureSentinel lib c), err := none } := by
  have hpos : c.Sentinel.length > 0 := List.length_pos.2 h
  simp [Configure, hpos]

/-- An empty sentinel list sends `Configure` down the direct branch. -/
theorem Configure_direct (lib : Lib) (c : RedisConfig) (rdb : Option Client)
    (h : c.Sentinel = []) :
    Configure lib (some c) rdb
      = { cfg := some (configureRedis lib c).1, rdb := (configureRedis lib c).2.1,
          err := (configureRedis lib c).2.2 } := by
  simp [Configure, h]

/-- C7: `Configure` returns an error exactly when the configuration is present,
has no sentinels, and parsing the endpoint URL fails; the error is then the
parse error and the client variable holds no client. In every other case no
error is returned. -/
theorem Configure_error (lib : Lib) (cfg : Option RedisConfig) (rdb : Option Client) :
    ((Configure lib cfg rdb).err ≠ none ↔
      ∃ c e, cfg = some c ∧ c.Sentinel = [] ∧
        lib.ParseURL (lib.URLString (endpointURL c)) = .error e) ∧
    (∀ c e, cfg = some c → c.Sentinel = [] →
      lib.ParseURL (lib.URLString (endpointURL c)) = .error e →
      (Configure lib cfg rdb).err = some e ∧ (Configure lib cfg rdb).rdb = none) := by
  constructor
  · cases cfg with
    | none => simp [Configure]
    | some c =>
      by_cases hl : c.Sentinel = []
      · rw [Configure_direct lib c rdb hl, configureRedis_eq]
        cases hp : lib.ParseURL (lib.URLString (endpointURL c)) with
        | error e => simp [hl, hp]
        | ok opt => simp [hp]
      · rw [Configure_sentinel lib c rdb hl]
        simp [hl]
  · intro c e hc hl hp
    subst hc
    rw [Configure_direct lib c rdb hl, configureRedis_eq, hp]
    exact ⟨rfl, rfl⟩

/-- C8: in sentinel mode, and in direct mode whenever the endpoint URL parses,
`Configure` stores a client whose pool size is the configured `MaxActive` when
that is set (whatever the integer) and 1 when it is unset, and whose idle bound
is the configured `MaxIdle` when that is set and 1 when it is unset. -/
theorem Configure_pool_bounds (lib : Lib) (c : RedisConfig) (rdb : Option Client) :
    (c.Sentinel ≠ [] →
      ∃ opt hooks, (Configure lib (some c) rdb).rdb = some (Client.NewFailoverClient opt hooks) ∧
        (∀ v, c.MaxActive = some v → opt.PoolSize = v) ∧
        (c.MaxActive = none → opt.PoolSize = 1) ∧
        (∀ v, c.MaxIdle = some v → opt.MaxIdleConns = v) ∧
        (c.MaxIdle = none → opt.MaxIdleConns = 1)) ∧
    (c.Sentinel = [] →
      ∀ parsed, lib.ParseURL (lib.URLString (endpointURL c)) = .ok parsed →
      ∃ opt hooks, (Configure lib (some c) rdb).rdb = some (Client.NewClient opt hooks) ∧
        (∀ v, c.MaxActive = some v → opt.PoolSize = v) ∧
        (c.MaxActive = none → opt.PoolSize = 1) ∧
        (∀ v, c.MaxIdle = some v → opt.MaxIdleConns = v) ∧
        (c.MaxIdle = none → opt.MaxIdleConns = 1)) := by
  constructor
  · intro hl
    rw [Configure_sentinel lib c rdb hl]
    refine ⟨_, _, rfl, ?_, ?_, ?_, ?_⟩
    · intro v hv
      simp [hv, getOrDefault]
    · intro hv
      simp [hv, getOrDefault, defaultMaxActive]
    · intro v hv
      simp [hv, getOrDefault]
    · intro hv
      simp [hv, getOrDefault, defaultMaxIdle]
  · intro hl parsed hp
    rw [Configure_direct lib c rdb hl, configureRedis_eq, hp]
    refine ⟨_, _, rfl, ?_, ?_, ?_, ?_⟩
    · intro v hv
      simp [hv, getOrDefault]
    · intro hv
      simp [hv, getOrDefault, defaultMaxActive]
    · intro v hv
      simp [hv, getOrDefault]
    · intro hv
      simp [hv, getOrDefault, defaultMaxIdle]

/-- The configuration record behind the pointer after `Configure`. -/
theorem Configure_cfg (lib : Lib) (c : RedisConfig) (rdb : Option Client) :
    (Configure lib (some c) rdb).cfg
      = some { c with URL := { c.URL with
          Scheme := if c.Sentinel = [] ∧ c.URL.Scheme = "tcp" then "redis"
                    else c.URL.Scheme } } := by
  have hcfg : (configureRedis lib c).1 = { c with URL := endpointURL c } := by
    rw [configureRedis_eq]
    cases lib.ParseURL (lib.URLString (endpointURL c)) <;> rfl
  by_cases hl : c.Sentinel = []
  · rw [Configure_direct lib c rdb hl, hcfg]
    by_cases hs : c.URL.Scheme = "tcp"
    · simp [endpointURL, hs, hl]
    · simp [endpointURL, hs]
  · rw [Configure_sentinel lib c rdb hl]
    simp [hl]

/-- C10, as the code has it: after `Configure` every field of the configuration
record has the value it had before, except that in direct mode an endpoint
scheme `tcp` has been rewritten to `redis`; a nil configuration stays nil, and
in sentinel mode or with any other scheme the record is unchanged. -/
theorem Configure_leaves_config (lib : Lib) (c : RedisConfig) (rdb : Option Client) :
    (Configure lib none rdb).cfg = none ∧
    (Configure lib (some c) rdb).cfg
      = some { c with URL := { c.URL with
          Scheme := if c.Sentinel = [] ∧ c.URL.Scheme = "tcp" then "redis"
                    else c.URL.Scheme } } ∧
    (¬ (c.Sentinel = [] ∧ c.URL.Scheme = "tcp") →
      (Configure lib (some c) rdb).cfg = some c) := by
  refine ⟨rfl, Configure_cfg lib c rdb, fun hn => ?_⟩
  rw [Configure_cfg lib c rdb, if_neg hn]

/-- C10 fails as stated: for a direct-mode configuration whose endpoint scheme
is `tcp`, the record after `Configure` has the scheme `redis`. -/
theorem Configure_rewrites_tcp_scheme :
    tcpConfig.URL.Scheme = "tcp" ∧
    (Configure sampleLib (some tcpConfig) none).cfg.map (fun c => c.URL.Scheme)
      = some "redis" ∧
    (Configure sampleLib (some tcpConfig) none).cfg ≠ some tcpConfig := by
  have h := Configure_cfg sampleLib tcpConfig none
  refine ⟨rfl, ?_, ?_⟩
  · rw [h]
    simp [tcpConfig]
  · rw [h]
    simp [tcpConfig]

/-! ## The statements at sample inputs -/

/-- C1 at a sentinel address, on a network that hands back the timeout it was
dialled with: the dial function returns the 500 ms timeout, and the one network
dial recorded has that timeout. -/
theorem createDialer_timeout_witness :
    "sentinel1:26379" ∈ ["sentinel1:26379", "sentinel2:26379"] ∧
    (createDialer timeoutEchoNet ["sentinel1:26379", "sentinel2:26379"] ⟨0⟩ "tcp"
        "sentinel1:26379" sampleWorld).1
      = timeoutEchoNet { Timeout := 500000000, KeepAlive := 300000000000 } ⟨0⟩ "tcp"
          "sentinel1:26379" ∧
    (createDialer timeoutEchoNet ["sentinel1:26379", "sentinel2:26379"] ⟨0⟩ "tcp"
        "sentinel1:26379" sampleWorld).2.netDials
      = sampleWorld.netDials ++
        [{ dialer := { Timeout := 500000000, KeepAlive := 300000000000 },
           ctx := ⟨0⟩, network := "tcp", addr := "sentinel1:26379" }] :=
  ⟨by decide,
    (createDialer_timeout timeoutEchoNet ["sentinel1:26379", "sentinel2:26379"] ⟨0⟩ "tcp"
      "sentinel1:26379" sampleWorld).1 (by decide)⟩

/-- C2 at a refused dial to a sentinel address: only `("dial", "sentinel")`
moves, from 0 to 1. -/
theorem createDialer_failure_counters_witness :
    (createDialer refusingNet ["sentinel1:26379"] ⟨0⟩ "tcp" "sentinel1:26379"
        sampleWorld).2.ErrorCounter "dial" "sentinel" = 0 + 1 ∧
    (createDialer refusingNet ["sentinel1:26379"] ⟨0⟩ "tcp" "sentinel1:26379"
        sampleWorld).2.ErrorCounter "dial" "redis" = 0 ∧
    (createDialer refusingNet ["sentinel1:26379"] ⟨0⟩ "tcp" "sentinel1:26379"
        sampleWorld).2.TotalConnections = 0 :=
  (createDialer_failure_counters refusingNet ["sentinel1:26379"] ⟨0⟩ "tcp"
    "sentinel1:26379" sampleWorld).1 (by decide) (by simp [refusingNet])

/-- C3 at an accepted dial to a data node: the total-connections counter moves
from 0 to 1 and the failure counters stay. -/
theorem createDialer_success_counters_witness :
    (createDialer acceptingNet ["sentinel1:26379"] ⟨0⟩ "tcp" "localhost:6379"
        sampleWorld).2.TotalConnections = 0 + 1 ∧
    (createDialer acceptingNet ["sentinel1:26379"] ⟨0⟩ "tcp" "localhost:6379"
        sampleWorld).2.ErrorCounter = sampleWorld.ErrorCounter :=
  (createDialer_success_counters acceptingNet ["sentinel1:26379"] ⟨0⟩ "tcp"
    "localhost:6379" sampleWorld).1 (by decide) (by simp [acceptingNet])

/-- C9 at a next handler that reports unreachable sentinels: the
`("master", "sentinel")` counter moves from 0 to 1. -/
theorem DialHook_counts_master_failure_witness :
    (sentinelInstrumentationHook.DialHook unreachableNext ⟨0⟩ "tcp" "sentinel1:26379"
        sampleWorld).2.ErrorCounter "master" "sentinel" = 0 + 1 :=
  (DialHook_counts_master_failure unreachableNext ⟨0⟩ "tcp" "sentinel1:26379"
    sampleWorld).1.2 ⟨_, rfl, rfl⟩

/-- C5 at two sentinels, the second with an embedded password, and no
configured sentinel password: the embedded password is returned. -/
theorem sentinelOptions_credential_witness :
    (sentinelOptions sampleLib sentinelConfig).1 = "hunter2" :=
  (sentinelOptions_credential sampleLib sentinelConfig).2.1 rfl [plainSentinel] []
    secretSentinel "hunter2" rfl
    (by
      intro x hx
      rw [List.mem_singleton.1 hx]
      exact Or.inl rfl)
    rfl (by decide)

/-- C6 at two sentinels: the entry at index 1 is the address of the second. -/
theorem sentinelOptions_addresses_witness :
    (sentinelOptions sampleLib sentinelConfig).2[1]? = some "sentinel2:26379" :=
  (sentinelOptions_addresses sampleLib sentinelConfig).2.1 1 secretSentinel rfl

/-- C7 at a direct-mode configuration the parser rejects: the parse error is
returned and no client is stored. -/
theorem Configure_error_witness :
    (Configure sampleLib (some malformedConfig) none).err
      = some { ident := 2, text := "redis: invalid URL" } ∧
    (Configure sampleLib (some malformedConfig) none).rdb = none :=
  (Configure_error sampleLib (some malformedConfig) none).2 malformedConfig _ rfl rfl
    (by simp [sampleLib, endpointURL, malformedConfig, tcpConfig])

/-- C8 at a direct-mode configuration with `MaxActive` set to zero and `MaxIdle`
unset: the client has pool size 0 and idle bound 1. -/
theorem Configure_pool_bounds_witness :
    ∃ opt hooks,
      (Configure sampleLib (some tcpConfig) none).rdb = some (Client.NewClient opt hooks) ∧
      opt.PoolSize = 0 ∧ opt.MaxIdleConns = 1 :=
  match (Configure_pool_bounds sampleLib tcpConfig none).2 rfl
      { Network := "tcp", Addr := "localhost:6379", Username := "", Password := "",
        DB := 0, PoolSize := 0, MaxIdleConns := 0, ConnMaxIdleTime := 0,
        ReadTimeout := 0, WriteTimeout := 0, Dialer := none }
      (by simp [sampleLib, endpointURL, tcpConfig]) with
  | ⟨opt, hooks, h, ha, _, _, hi⟩ => ⟨opt, hooks, h, ha 0 rfl, hi rfl⟩

/-- C10 as amended, at a sentinel-mode configuration: the record is unchanged. -/
theorem Configure_leaves_config_witness :
    (Configure sampleLib (some sentinelConfig) none).cfg = some sentinelConfig :=
  (Configure_leaves_config sampleLib sentinelConfig none).2.2
    (by simp [sentinelConfig])

end GoRedis
